import Mathlib

/-!
Shallow embedding of the FastAPI traffic-broadcast service (`main.py`).

The embedding covers the two stateful parts of the program:

* the Record Store: the global `traffic_db` list and `load_traffic_data`,
  together with the `GET /traffic` accessor `get_traffic`;
* the Broadcast Endpoint: the global `active_connections` set and the
  handler `websocket_endpoint`, including its welcome send, its
  receive/broadcast loop (which iterates over `active_connections.copy()`
  and evicts a connection whose send fails with
  `active_connections.remove` — a `set.remove` that raises `KeyError`,
  aborting the fan-out, when the connection has already left the live
  set), and its `finally` cleanup (`active_connections.remove(websocket)`
  followed by `websocket.close()` with only `RuntimeError` caught).

Python sets of websocket handles are modelled as duplicate-free `List Conn`
values; decoded JSON values as the inductive `Json`; raised exceptions as
`Except PyError`.  The handler is modelled as a sequential run: a script
lists the messages successfully received on the connection before the
receive that fails (a disconnect surfaces as a receive error), and each
send is given a success/failure outcome by a `Conn → Bool` oracle.
-/

/-- One traffic record, mirroring `class TrafficData(BaseModel)` with the two
required string fields `location` and `event`. -/
structure TrafficData where
  location : String
  event : String
deriving DecidableEq, Repr

/-- Decoded JSON values: the possible results of `json.load` on the startup
file and of `websocket.receive_json` on an open connection. -/
inductive Json where
  | null
  | bool (b : Bool)
  | num (n : Int)
  | str (s : String)
  | arr (elems : List Json)
  | obj (fields : List (String × Json))

/-- Exceptions that the modelled Python code can raise and does not catch
at the raise site: `TypeError` (unpacking or iterating a non-mapping),
pydantic `ValidationError` (missing or non-string required field), and
`KeyError` (removing an absent element from a set). -/
inductive PyError where
  | typeError
  | validationError
  | keyError
deriving DecidableEq, Repr

/-- The externally observable state of the startup file `traffic_data.json`:
absent (`open` raises `FileNotFoundError`), present but not JSON
(`json.load` raises `JSONDecodeError`), or present with decoded value `v`. -/
inductive FileState where
  | absent
  | invalidJson
  | validJson (v : Json)

def locationKey : String := "location"

def eventKey : String := "event"

/-- First-match lookup of a key in a decoded JSON object's fields.  Decoded
Python dicts have unique keys, so first-match agrees with dict access. -/
def lookupField : List (String × Json) → String → Option Json
  | [], _ => none
  | (k, v) :: rest, key => if k = key then some v else lookupField rest key

/-- `TrafficData(**item)`: requires `item` to be a mapping (else `TypeError`)
whose `location` and `event` entries are strings (else pydantic raises a
`ValidationError`).  String fields are taken verbatim; pydantic v1's lax
coercions of non-string primitives are not modelled, as no claim concerns
such inputs. -/
def trafficDataOfKwargs : Json → Except PyError TrafficData
  | .obj fields =>
      match lookupField fields locationKey, lookupField fields eventKey with
      | some (.str l), some (.str e) => .ok ⟨l, e⟩
      | _, _ => .error .validationError
  | _ => .error .typeError

/-- Python iteration of a decoded JSON value, as performed by the list
comprehension `for item in json.load(file)`: lists yield their elements,
strings their one-character substrings, dicts their keys; other values are
not iterable and raise `TypeError`. -/
def pyIter : Json → Except PyError (List Json)
  | .arr xs => .ok xs
  | .str s => .ok (s.data.map fun c => .str (String.mk [c]))
  | .obj fs => .ok (fs.map fun f => .str f.1)
  | _ => .error .typeError

/-- The comprehension `[TrafficData(**item) for item in items]`: items are
converted left to right and the first raised exception aborts the whole
list, leaving `traffic_db` unassigned. -/
def buildRecords : List Json → Except PyError (List TrafficData)
  | [] => .ok []
  | item :: rest =>
      match trafficDataOfKwargs item with
      | .error e => .error e
      | .ok r =>
          match buildRecords rest with
          | .error e => .error e
          | .ok rs => .ok (r :: rs)

/-- The two hardcoded fallback records assigned on `FileNotFoundError` and on
`json.JSONDecodeError`. -/
def defaultRecords : List TrafficData :=
  [⟨"台北市中正區", "交通順暢"⟩, ⟨"新北市板橋區", "輕微塞車"⟩]

/-- `load_traffic_data()`: the value assigned to the global `traffic_db`, or
the exception that escapes the function.  `FileNotFoundError` and
`json.JSONDecodeError` are caught and yield `defaultRecords`; a `TypeError`
or `ValidationError` raised while building the record list is not caught. -/
def load_traffic_data (fs : FileState) : Except PyError (List TrafficData) :=
  match fs with
  | .absent => .ok defaultRecords
  | .invalidJson => .ok defaultRecords
  | .validJson v =>
      match pyIter v with
      | .error e => .error e
      | .ok items => buildRecords items

/-- The state of the global `traffic_db` after running `load_traffic_data`
against file state `fs`, starting from `db`: the comprehension is evaluated
before the assignment, so when an exception escapes, the old list is kept. -/
def runLoad (fs : FileState) (db : List TrafficData) : List TrafficData :=
  match load_traffic_data fs with
  | .ok newDb => newDb
  | .error _ => db

/-- The Record Store accessor: `GET /traffic` (and the spec's `all()`) returns
the current `traffic_db` verbatim. -/
def get_traffic (db : List TrafficData) : List TrafficData := db

/-- `TrafficData.dict()`, the payload handed to `send_json` for the welcome
message. -/
def trafficDataDict (r : TrafficData) : Json :=
  .obj [(locationKey, .str r.location), (eventKey, .str r.event)]

/-- Connections are opaque handles; identity is all that matters. -/
abbrev Conn := Nat

/-- Observable actions of one run of the handler, in program order. -/
inductive Event where
  | accepted (c : Conn)
  | registered (c : Conn)
  | sent (target : Conn) (payload : Json)
  | sendFailed (target : Conn)
  | received (payload : Json)
  | recvFailed
  | closed (c : Conn)
  | closeFailedSwallowed (c : Conn)

/-- `active_connections.add(websocket)`: set insertion, a no-op when the
element is already present. -/
def pyAdd (c : Conn) (reg : List Conn) : List Conn :=
  if c ∈ reg then reg else c :: reg

/-- Outcome of one fan-out: the live `active_connections` afterwards, the
events in order, and whether the fan-out was aborted by a `KeyError` from
`active_connections.remove(connection)` — in which case the remaining
snapshot targets were never attempted. -/
structure FanoutResult where
  registry : List Conn
  events : List Event
  aborted : Bool

/-- The fan-out loop (`for connection in active_connections.copy(): ...`),
main.py lines 183-189.  The first list is the copy taken when the message
arrived; `reg` is the live `active_connections`.  Each target in the
snapshot is attempted in order: a successful `send_json` delivers the
payload verbatim; a failing one is caught and the target is evicted with
`active_connections.remove(connection)` — a `set.remove`, which removes
the target when it is still in the live set and otherwise raises
`KeyError`.  That `KeyError` escapes the `for` loop (only the send was
inside the inner `try`), so the remaining snapshot targets are skipped:
the result is then marked `aborted`. -/
def broadcast (ok : Conn → Bool) (payload : Json) :
    List Conn → List Conn → FanoutResult
  | [], reg => ⟨reg, [], false⟩
  | t :: rest, reg =>
      if ok t then
        let r := broadcast ok payload rest reg
        ⟨r.registry, Event.sent t payload :: r.events, r.aborted⟩
      else
        if t ∈ reg then
          let r := broadcast ok payload rest (reg.erase t)
          ⟨r.registry, Event.sendFailed t :: r.events, r.aborted⟩
        else
          ⟨reg, [Event.sendFailed t], true⟩

/-- The `while True` receive/broadcast loop.  The script lists the messages
successfully received on this connection, each paired with the send-outcome
oracle for its fan-out; every fan-out snapshots the live registry at the
moment of receipt.  The loop ends either with the receive failure that the
script leaves implicit (`recvFailed`), or early when a fan-out's eviction
raises `KeyError`: the `except` at main.py line 190 catches it and breaks
out of the loop. -/
def loopRun : List (Json × (Conn → Bool)) → List Conn → List Conn × List Event
  | [], reg => (reg, [Event.recvFailed])
  | (p, ok) :: rest, reg =>
      let b := broadcast ok p reg reg
      if b.aborted then
        (b.registry, Event.received p :: b.events)
      else
        let r := loopRun rest b.registry
        (r.1, (Event.received p :: b.events) ++ r.2)

/-- The `finally` block: `active_connections.remove(websocket)` raises
`KeyError` when the connection is no longer in the set; otherwise the
connection is removed and `websocket.close()` is attempted, with a
`RuntimeError` (close of an already-closed transport) caught and logged. -/
def cleanup (c : Conn) (reg : List Conn) (closeRuntimeError : Bool) :
    Except PyError (List Conn × List Event) :=
  if c ∈ reg then
    .ok (reg.erase c,
      [if closeRuntimeError then Event.closeFailedSwallowed c else Event.closed c])
  else
    .error .keyError

/-- Result of one full run of the handler: the final `active_connections`,
the events in order, and the exception escaping the handler, if any. -/
structure RunResult where
  registry : List Conn
  events : List Event
  raised : Option PyError

/-- Runs the `finally` block after body events `evs`, packaging the run. -/
def finish (c : Conn) (reg : List Conn) (evs : List Event)
    (closeRuntimeError : Bool) : RunResult :=
  match cleanup c reg closeRuntimeError with
  | .ok r => ⟨r.1, evs ++ r.2, none⟩
  | .error e => ⟨reg, evs, some e⟩

/-- One sequential run of `websocket_endpoint`: accept, register, send the
welcome message when `traffic_db` is non-empty (`welcomeOk` tells whether
that send succeeds; on failure the exception skips the loop, is caught by
the outer handler, and the `finally` block runs), then the receive loop,
then the `finally` cleanup. -/
def websocket_endpoint (c : Conn) (db : List TrafficData) (reg : List Conn)
    (welcomeOk : Bool) (script : List (Json × (Conn → Bool)))
    (closeRuntimeError : Bool) : RunResult :=
  let reg1 := pyAdd c reg
  match db with
  | [] =>
      let l := loopRun script reg1
      finish c l.1
        ([Event.accepted c, Event.registered c] ++ l.2)
        closeRuntimeError
  | r :: _ =>
      if welcomeOk then
        let l := loopRun script reg1
        finish c l.1
          ([Event.accepted c, Event.registered c, Event.sent c (trafficDataDict r)]
            ++ l.2)
          closeRuntimeError
      else
        finish c reg1
          [Event.accepted c, Event.registered c, Event.sendFailed c]
          closeRuntimeError

/-- Does this event record a send attempt (successful or failed) to `t`? -/
def attemptsTo (t : Conn) : Event → Bool
  | .sent c _ => c == t
  | .sendFailed c => c == t
  | _ => false

theorem broadcast_events (ok : Conn → Bool) (p : Json) :
    ∀ snap : List Conn, snap.Nodup →
    ∀ reg : List Conn, (∀ t ∈ snap, ok t = false → t ∈ reg) →
      (broadcast ok p snap reg).aborted = false
      ∧ (broadcast ok p snap reg).events =
          snap.map fun t => if ok t then Event.sent t p else Event.sendFailed t := by
  intro snap
  induction snap with
  | nil => intro _ reg _; exact ⟨rfl, rfl⟩
  | cons t rest ih =>
      intro hsnap reg hfail
      have hrest : rest.Nodup := hsnap.of_cons
      have htnotin : t ∉ rest := (List.nodup_cons.mp hsnap).1
      cases h : ok t with
      | true =>
          have hr := ih hrest reg
            (fun s hs hf => hfail s (List.mem_cons_of_mem t hs) hf)
          simp [broadcast, h, hr.1, hr.2]
      | false =>
          have htreg : t ∈ reg := hfail t (List.mem_cons_self t rest) h
          have hr := ih hrest (reg.erase t) (fun s hs hf => by
            have hsne : s ≠ t := fun hst => htnotin (hst ▸ hs)
            exact (List.mem_erase_of_ne hsne).mpr
              (hfail s (List.mem_cons_of_mem t hs) hf))
          simp [broadcast, h, htreg, hr.1, hr.2]

theorem mem_broadcast_registry_iff (ok : Conn → Bool) (p : Json) :
    ∀ snap : List Conn, snap.Nodup →
    ∀ reg : List Conn, reg.Nodup → (∀ t ∈ snap, ok t = false → t ∈ reg) →
    ∀ x : Conn,
      (x ∈ (broadcast ok p snap reg).registry ↔
        x ∈ reg ∧ (x ∈ snap → ok x = true)) := by
  intro snap
  induction snap with
  | nil => intro _ reg _ _ x; simp [broadcast]
  | cons t rest ih =>
      intro hsnap reg hreg hfail x
      have hrest : rest.Nodup := hsnap.of_cons
      have htnotin : t ∉ rest := (List.nodup_cons.mp hsnap).1
      cases h : ok t with
      | true =>
          simp only [broadcast, h, if_true]
          rw [ih hrest reg hreg
            (fun s hs hf => hfail s (List.mem_cons_of_mem t hs) hf) x]
          constructor
          · rintro ⟨hx, himp⟩
            refine ⟨hx, fun hmem => ?_⟩
            rcases List.mem_cons.mp hmem with rfl | hmem
            · exact h
            · exact himp hmem
          · rintro ⟨hx, himp⟩
            exact ⟨hx, fun hmem => himp (List.mem_cons_of_mem t hmem)⟩
      | false =>
          have htreg : t ∈ reg := hfail t (List.mem_cons_self t rest) h
          simp only [broadcast, h, Bool.false_eq_true, if_false, htreg,
            if_true]
          rw [ih hrest (reg.erase t) (hreg.erase t) (fun s hs hf => by
            have hsne : s ≠ t := fun hst => htnotin (hst ▸ hs)
            exact (List.mem_erase_of_ne hsne).mpr
              (hfail s (List.mem_cons_of_mem t hs) hf)) x]
          rw [hreg.mem_erase_iff]
          constructor
          · rintro ⟨⟨hxt, hx⟩, himp⟩
            refine ⟨hx, fun hmem => ?_⟩
            rcases List.mem_cons.mp hmem with rfl | hmem
            · exact absurd rfl hxt
            · exact himp hmem
          · rintro ⟨hx, himp⟩
            have hxt : x ≠ t := by
              rintro rfl
              exact Bool.false_ne_true (h ▸ himp (List.mem_cons_self x rest))
            exact ⟨⟨hxt, hx⟩, fun hmem => himp (List.mem_cons_of_mem t hmem)⟩

theorem broadcast_attempt_mem (ok : Conn → Bool) (q : Json) (j : Conn) :
    ∀ (snap reg : List Conn) (e : Event),
      e ∈ (broadcast ok q snap reg).events → attemptsTo j e = true →
      j ∈ snap := by
  intro snap
  induction snap with
  | nil => intro reg e he _; simp [broadcast] at he
  | cons t rest ih =>
      intro reg e he ha
      have hhead : attemptsTo j (Event.sent t q) = true → j = t := by
        simp [attemptsTo, beq_iff_eq]
        exact fun h => h.symm
      have hheadf : attemptsTo j (Event.sendFailed t) = true → j = t := by
        simp [attemptsTo, beq_iff_eq]
        exact fun h => h.symm
      cases h : ok t with
      | true =>
          simp only [broadcast, h, if_true, List.mem_cons] at he
          rcases he with rfl | he
          · exact (hhead ha) ▸ List.mem_cons_self t rest
          · exact List.mem_cons_of_mem t (ih reg e he ha)
      | false =>
          by_cases htreg : t ∈ reg
          · simp only [broadcast, h, Bool.false_eq_true, if_false, htreg,
              if_true, List.mem_cons] at he
            rcases he with rfl | he
            · exact (hheadf ha) ▸ List.mem_cons_self t rest
            · exact List.mem_cons_of_mem t (ih (reg.erase t) e he ha)
          · simp only [broadcast, h, Bool.false_eq_true, if_false, htreg,
              List.mem_cons, List.not_mem_nil, or_false] at he
            subst he
            exact (hheadf ha) ▸ List.mem_cons_self t rest

theorem pyAdd_mem (c : Conn) (reg : List Conn) : c ∈ pyAdd c reg := by
  unfold pyAdd
  split
  · assumption
  · exact List.mem_cons_self c reg

theorem cleanup_of_mem (c : Conn) (reg : List Conn) (b : Bool) (h : c ∈ reg) :
    cleanup c reg b =
      Except.ok (reg.erase c,
        [if b then Event.closeFailedSwallowed c else Event.closed c]) := by
  simp [cleanup, h]

theorem finish_events (c : Conn) (reg : List Conn) (evs : List Event)
    (b : Bool) : ∃ tail, (finish c reg evs b).events = evs ++ tail := by
  unfold finish
  cases h : cleanup c reg b with
  | ok r => exact ⟨r.2, rfl⟩
  | error e => exact ⟨[], (List.append_nil evs).symm⟩

theorem trafficDataOfKwargs_dict (r : TrafficData) :
    trafficDataOfKwargs (trafficDataDict r) = Except.ok r := rfl

theorem buildRecords_dicts (recs : List TrafficData) :
    buildRecords (recs.map trafficDataDict) = Except.ok recs := by
  induction recs with
  | nil => rfl
  | cons r rest ih => simp [buildRecords, trafficDataOfKwargs_dict, ih]

theorem broadcast_all_sends (ok : Conn → Bool) (p : Json) :
    ∀ snap reg : List Conn, (∀ t ∈ snap, ok t = true) →
      (broadcast ok p snap reg).events = snap.map fun t => Event.sent t p := by
  intro snap
  induction snap with
  | nil => intro reg _; rfl
  | cons t rest ih =>
      intro reg hok
      have h := hok t (List.mem_cons_self t rest)
      simp [broadcast, h,
        ih reg (fun s hs => hok s (List.mem_cons_of_mem t hs))]

/-- Send-outcome oracle under which sending to `j` fails and every other
send succeeds. -/
def failOnly (j : Conn) : Conn → Bool := fun t => !(t == j)

/-- C1: a message `p` received on connection `i` while the registry snapshot
is `R` is fanned out by `websocket_endpoint` (main.py lines 183-189) so
that every connection in `R` other than `i` gets the verbatim payload `p`
(the sender itself is also sent a copy, which the claim allows with
"except possibly i"), and no connection outside the snapshot — in
particular none that had already disconnected and been removed before the
fan-out began — is ever sent anything. -/
theorem c1_broadcast_delivers (R : List Conn) (i : Conn) (p : Json)
    (hi : i ∈ R) :
    (∀ t ∈ R, t ≠ i →
      Event.sent t p ∈ (broadcast (fun _ => true) p R R).events)
    ∧ ∀ t, t ∉ R → ∀ q,
        Event.sent t q ∉ (broadcast (fun _ => true) p R R).events := by
  constructor
  · intro t ht _
    rw [broadcast_all_sends (fun _ => true) p R R (fun _ _ => rfl)]
    exact List.mem_map.mpr ⟨t, ht, rfl⟩
  · intro t ht q hmem
    exact ht (broadcast_attempt_mem (fun _ => true) p t R R (Event.sent t q)
      hmem (by simp [attemptsTo]))

/-- Witness for C1 at a concrete input: with registry {0, 1} and the message
arriving on connection 1, connection 0 receives the payload. -/
theorem c1_broadcast_delivers_witness :
    Event.sent 0 Json.null ∈
      (broadcast (fun _ => true) Json.null [0, 1] [0, 1]).events :=
  (c1_broadcast_delivers [0, 1] 1 Json.null (by decide)).1 0 (by decide)
    (by decide)

/-- C2: if during the fan-out of `p` over snapshot `R` the send to `j` fails
and all other sends succeed, then every other connection in `R` (in
particular every one after `j` in iteration order) still receives `p`, `j`
is evicted from the live registry by the time the fan-out ends, and the
next broadcast — whose snapshot is the updated registry — makes no send
attempt to `j` at all. -/
theorem c2_send_failure_isolated (R : List Conn) (j : Conn) (p : Json)
    (hR : R.Nodup) (hj : j ∈ R) :
    (∀ t ∈ R, t ≠ j →
      Event.sent t p ∈ (broadcast (failOnly j) p R R).events)
    ∧ j ∉ (broadcast (failOnly j) p R R).registry
    ∧ ∀ (ok : Conn → Bool) (q : Json) (e : Event),
        e ∈ (broadcast ok q (broadcast (failOnly j) p R R).registry
              (broadcast (failOnly j) p R R).registry).events →
        attemptsTo j e = false := by
  have hfail : ∀ t ∈ R, failOnly j t = false → t ∈ R := fun t ht _ => ht
  have hnotmem : j ∉ (broadcast (failOnly j) p R R).registry := by
    rw [mem_broadcast_registry_iff (failOnly j) p R hR R hR hfail j]
    rintro ⟨-, himp⟩
    have := himp hj
    simp [failOnly] at this
  refine ⟨?_, hnotmem, ?_⟩
  · intro t ht hne
    rw [(broadcast_events (failOnly j) p R hR R hfail).2]
    refine List.mem_map.mpr ⟨t, ht, ?_⟩
    simp [failOnly, hne]
  · intro ok q e he
    cases ha : attemptsTo j e with
    | false => rfl
    | true => exact absurd (broadcast_attempt_mem ok q j _ _ e he ha) hnotmem

/-- Witness for C2 at a concrete input: registry {0, 1, 2}, the send to 1
fails; connection 2 (after 1 in iteration order) still receives the
payload and 1 is gone from the live registry. -/
theorem c2_send_failure_isolated_witness :
    Event.sent 2 Json.null ∈
      (broadcast (failOnly 1) Json.null [0, 1, 2] [0, 1, 2]).events
    ∧ 1 ∉ (broadcast (failOnly 1) Json.null [0, 1, 2] [0, 1, 2]).registry :=
  ⟨(c2_send_failure_isolated [0, 1, 2] 1 Json.null (by decide) (by decide)).1
      2 (by decide) (by decide),
   (c2_send_failure_isolated [0, 1, 2] 1 Json.null (by decide) (by decide)).2.1⟩

/-- Counterexample to C7: a removal during the fan-out can make the fan-out
skip a remaining snapshot recipient.  Snapshot `[1, 2]` was copied while 1
and 2 were registered; connection 1 then left the live registry
mid-fan-out (evicted by another handler's fan-out), leaving the live set
`[2]`.  When this fan-out's send to 1 fails, line 189's
`active_connections.remove(connection)` raises `KeyError` because 1 is
already gone; the exception escapes the `for` loop, so connection 2 — a
remaining recipient from the snapshot — never receives the message. -/
theorem c7_stale_eviction_aborts_counterexample :
    (broadcast (failOnly 1) Json.null [1, 2] [2]).aborted = true
    ∧ Event.sent 2 Json.null ∉
        (broadcast (failOnly 1) Json.null [1, 2] [2]).events := by
  refine ⟨rfl, ?_⟩
  intro h
  simp [broadcast, failOnly] at h

/-- C7 as amended: the fan-out iterates over the snapshot copied at receipt,
never over the live registry, so no Python iteration error can arise, and
— provided every connection whose send fails is still in the live
registry when evicted (true in particular of every sequential run, where
the only mid-fan-out removals are the fan-out's own evictions of distinct
snapshot members) — the fan-out completes unaborted, its event sequence
is independent of which other connections the live registry holds, and
every member of the duplicate-free snapshot is the target of exactly one
send attempt: none skipped, none duplicated.  Without that proviso a
mid-fan-out removal makes the eviction's `set.remove` raise `KeyError`
and the remaining snapshot recipients are skipped (the counterexample). -/
theorem c7_snapshot_iteration_amended (ok : Conn → Bool) (p : Json)
    (snap reg reg2 : List Conn) (h : snap.Nodup)
    (hreg : ∀ t ∈ snap, ok t = false → t ∈ reg)
    (hreg2 : ∀ t ∈ snap, ok t = false → t ∈ reg2) :
    (broadcast ok p snap reg).aborted = false
    ∧ (broadcast ok p snap reg).events = (broadcast ok p snap reg2).events
    ∧ ∀ t ∈ snap,
        (broadcast ok p snap reg).events.countP (attemptsTo t) = 1 := by
  have h1 := broadcast_events ok p snap h reg hreg
  have h2 := broadcast_events ok p snap h reg2 hreg2
  refine ⟨h1.1, by rw [h1.2, h2.2], ?_⟩
  intro t ht
  rw [h1.2, List.countP_map]
  have hfun :
      ((attemptsTo t) ∘ fun s =>
          if ok s then Event.sent s p else Event.sendFailed s)
        = fun s => s == t := by
    funext s
    cases hs : ok s <;> simp [attemptsTo, hs]
  rw [hfun, ← List.count_eq_countP]
  exact List.count_eq_one_of_mem h ht

/-- Witness for the amended C7 at a concrete input: snapshot {0, 1} with the
send to 1 failing while 1 is still live in both registry states; the
fan-out is not aborted, the event sequence is the same for live registries
{0, 1} and {1, 7}, and each snapshot member is attempted once. -/
theorem c7_snapshot_iteration_amended_witness :
    (broadcast (failOnly 1) Json.null [0, 1] [0, 1]).aborted = false
    ∧ (broadcast (failOnly 1) Json.null [0, 1] [0, 1]).events =
        (broadcast (failOnly 1) Json.null [0, 1] [1, 7]).events
    ∧ (broadcast (failOnly 1) Json.null [0, 1] [0, 1]).events.countP
        (attemptsTo 0) = 1 :=
  ⟨(c7_snapshot_iteration_amended (failOnly 1) Json.null [0, 1] [0, 1] [1, 7]
      (by decide) (by decide) (by decide)).1,
   (c7_snapshot_iteration_amended (failOnly 1) Json.null [0, 1] [0, 1] [1, 7]
      (by decide) (by decide) (by decide)).2.1,
   (c7_snapshot_iteration_amended (failOnly 1) Json.null [0, 1] [0, 1] [1, 7]
      (by decide) (by decide) (by decide)).2.2 0 (by decide)⟩

/-- C6: for every new incoming connection served while the Record Store holds
`r` as its first record, `websocket_endpoint` first accepts the channel,
then registers the connection, and immediately afterwards sends
`all()[0].dict()` to this connection alone: the run's events begin with
exactly `accepted c, registered c, sent c (dict r)`, so no other
connection is sent anything before or alongside the welcome message. -/
theorem c6_accept_register_welcome (c : Conn) (r : TrafficData)
    (rest : List TrafficData) (reg : List Conn)
    (script : List (Json × (Conn → Bool))) (b : Bool) :
    ∃ tail, (websocket_endpoint c (r :: rest) reg true script b).events =
      Event.accepted c :: Event.registered c ::
        Event.sent c (trafficDataDict r) :: tail := by
  unfold websocket_endpoint
  simp only [if_true]
  obtain ⟨tail, htail⟩ := finish_events c (loopRun script (pyAdd c reg)).1
    ([Event.accepted c, Event.registered c, Event.sent c (trafficDataDict r)]
      ++ (loopRun script (pyAdd c reg)).2) b
  exact ⟨(loopRun script (pyAdd c reg)).2 ++ tail, by simpa using htail⟩

/-- C10: a connection accepted while the Record Store is empty gets no
welcome message — with no inbound messages in the run, the server sends it
nothing at all — yet it is still registered and the handler proceeds to
the receive loop (whose terminating receive failure is observed). -/
theorem c10_empty_store_no_welcome (c : Conn) (reg : List Conn)
    (welcomeOk b : Bool) :
    (∀ t p, Event.sent t p ∉ (websocket_endpoint c [] reg welcomeOk [] b).events)
    ∧ Event.registered c ∈ (websocket_endpoint c [] reg welcomeOk [] b).events
    ∧ Event.recvFailed ∈ (websocket_endpoint c [] reg welcomeOk [] b).events := by
  have hrun : websocket_endpoint c [] reg welcomeOk [] b =
      finish c (pyAdd c reg)
        [Event.accepted c, Event.registered c, Event.recvFailed] b := by
    simp [websocket_endpoint, loopRun]
  rw [hrun]
  unfold finish
  rw [cleanup_of_mem c (pyAdd c reg) b (pyAdd_mem c reg)]
  cases b <;> simp

/-- Counterexample to C3: the `finally` block's registry removal is
`set.remove`, not a tolerant discard.  In this sequential run a single
connection's send-to-self fails during its own fan-out, so it is evicted
from the registry; when its receive loop then ends and the cleanup runs,
`active_connections.remove(websocket)` raises `KeyError` — the handler
does raise on an already-removed connection, and the close is never
attempted. -/
theorem c3_remove_raises_counterexample :
    (websocket_endpoint 0 [] [] true [(Json.null, fun _ => false)]
        false).raised = some PyError.keyError := rfl

/-- C3 as amended: the `finally` cleanup is exception-free only when the
connection is still registered; in that case it is removed from the
registry and the channel close is attempted, with a `RuntimeError` from
closing an already-closed channel swallowed (the run still completes
normally, recording the swallowed failure).  When the connection has
already been removed, the cleanup instead raises `KeyError` (the
counterexample). -/
theorem c3_cleanup_when_registered (c : Conn) (reg : List Conn) (b : Bool)
    (h : c ∈ reg) :
    cleanup c reg b =
      Except.ok (reg.erase c,
        [if b then Event.closeFailedSwallowed c else Event.closed c]) :=
  cleanup_of_mem c reg b h

/-- Witness for the amended C3: a registered connection is cleaned up without
an exception even when `close()` raises `RuntimeError`. -/
theorem c3_cleanup_when_registered_witness :
    cleanup 0 [0] true = Except.ok ([], [Event.closeFailedSwallowed 0]) :=
  c3_cleanup_when_registered 0 [0] true (by decide)

/-- Counterexample to C4: a failing welcome send is fatal to the connection.
With a non-empty store and the welcome send raising, the handler's outer
`except` catches the exception before the receive loop ever runs and the
`finally` block unregisters and closes the connection: the final registry
is empty and the events show no `received` message despite never reaching
the loop. -/
theorem c4_welcome_failure_counterexample :
    (websocket_endpoint 0 defaultRecords [] false
        [(Json.null, fun _ => true)] false).registry = []
    ∧ (websocket_endpoint 0 defaultRecords [] false
        [(Json.null, fun _ => true)] false).events =
      [Event.accepted 0, Event.registered 0, Event.sendFailed 0,
        Event.closed 0] :=
  ⟨rfl, rfl⟩

/-- C4 as amended: registration does precede the welcome send, but a welcome
send failure is not survivable: the exception propagates to the outer
handler, the receive loop is never entered, and the connection is
unregistered (the registry returns to its pre-connection state) and
closed without the handler raising. -/
theorem c4_welcome_failure_unregisters (c : Conn) (r : TrafficData)
    (rest : List TrafficData) (reg : List Conn)
    (script : List (Json × (Conn → Bool))) (b : Bool) (h : c ∉ reg) :
    (websocket_endpoint c (r :: rest) reg false script b).registry = reg
    ∧ Event.registered c ∈
        (websocket_endpoint c (r :: rest) reg false script b).events
    ∧ (∀ p, Event.received p ∉
        (websocket_endpoint c (r :: rest) reg false script b).events)
    ∧ (websocket_endpoint c (r :: rest) reg false script b).raised = none := by
  have hrun : websocket_endpoint c (r :: rest) reg false script b =
      finish c (c :: reg)
        [Event.accepted c, Event.registered c, Event.sendFailed c] b := by
    simp [websocket_endpoint, pyAdd, h]
  rw [hrun]
  unfold finish
  rw [cleanup_of_mem c (c :: reg) b (List.mem_cons_self c reg)]
  cases b <;> simp

/-- Witness for the amended C4: concrete run with the default records, a
fresh connection and a failing welcome send. -/
theorem c4_welcome_failure_unregisters_witness :
    (websocket_endpoint 0 defaultRecords [] false [] false).registry = []
    ∧ Event.received Json.null ∉
        (websocket_endpoint 0 defaultRecords [] false [] false).events :=
  ⟨(c4_welcome_failure_unregisters 0 ⟨"台北市中正區", "交通順暢"⟩
      [⟨"新北市板橋區", "輕微塞車"⟩] [] [] false (by decide)).1,
   (c4_welcome_failure_unregisters 0 ⟨"台北市中正區", "交通順暢"⟩
      [⟨"新北市板橋區", "輕微塞車"⟩] [] [] false (by decide)).2.2.1
      Json.null⟩

/-- Counterexample to C5: a startup file whose content is valid JSON but does
not parse into records — the array `[{}]`, whose single object lacks the
required keys — does not make `load()` fall back to the defaults: the
pydantic `ValidationError` is not among the caught exceptions, so it
escapes `load_traffic_data` and the stored list (here the initial empty
one) is left unchanged rather than replaced by the two default records. -/
theorem c5_validation_not_defaulted_counterexample :
    load_traffic_data (FileState.validJson (Json.arr [Json.obj []])) =
      Except.error PyError.validationError
    ∧ runLoad (FileState.validJson (Json.arr [Json.obj []])) [] ≠
      defaultRecords :=
  ⟨rfl, by decide⟩

/-- C5 as amended: `load()` replaces the stored list with exactly the two
fixed default records precisely on the two caught failures — file absent
(`FileNotFoundError`) and content that is not JSON (`JSONDecodeError`).
Content that decodes as JSON but fails to convert into records instead
raises an uncaught exception, leaving the stored list unchanged. -/
theorem c5_defaults_on_caught_failures (db : List TrafficData) :
    runLoad FileState.absent db = defaultRecords
    ∧ runLoad FileState.invalidJson db = defaultRecords
    ∧ ∀ (v : Json) (e : PyError),
        load_traffic_data (FileState.validJson v) = Except.error e →
        runLoad (FileState.validJson v) db = db := by
  refine ⟨rfl, rfl, ?_⟩
  intro v e h
  unfold runLoad
  rw [h]

/-- Witness for the amended C5: the absent-file case yields the defaults and
the invalid-record case keeps the old list. -/
theorem c5_defaults_on_caught_failures_witness :
    runLoad FileState.absent [] = defaultRecords
    ∧ runLoad (FileState.validJson (Json.arr [Json.obj []])) [] = [] :=
  ⟨(c5_defaults_on_caught_failures []).1,
   (c5_defaults_on_caught_failures []).2.2 (Json.arr [Json.obj []])
      PyError.validationError rfl⟩

/-- C8: for every startup file holding a JSON array of `{location, event}`
objects, `load()` succeeds with exactly those records in file order, and
`all()` (the `GET /traffic` accessor) afterwards returns exactly them. -/
theorem c8_load_valid_file_roundtrip (recs : List TrafficData)
    (db : List TrafficData) :
    load_traffic_data (FileState.validJson
        (Json.arr (recs.map trafficDataDict))) = Except.ok recs
    ∧ get_traffic (runLoad (FileState.validJson
        (Json.arr (recs.map trafficDataDict))) db) = recs := by
  have hload : load_traffic_data (FileState.validJson
      (Json.arr (recs.map trafficDataDict))) = Except.ok recs := by
    simp [load_traffic_data, pyIter, buildRecords_dicts]
  refine ⟨hload, ?_⟩
  unfold get_traffic runLoad
  rw [hload]

/-- C9: `load()` is idempotent on the stored list: for a fixed external file
state, running it twice leaves `traffic_db` exactly as one run does —
including the uncaught-exception case, where the list is kept both
times. -/
theorem c9_load_idempotent (fs : FileState) (db : List TrafficData) :
    runLoad fs (runLoad fs db) = runLoad fs db := by
  unfold runLoad
  cases h : load_traffic_data fs <;> simp

/-- Witness for C10 at a concrete input: a fresh connection joining with an
empty store is sent nothing, is registered, and reaches the receive
loop. -/
theorem c10_empty_store_no_welcome_witness :
    Event.sent 0 Json.null ∉
      (websocket_endpoint 0 [] [] true [] false).events
    ∧ Event.registered 0 ∈ (websocket_endpoint 0 [] [] true [] false).events
    ∧ Event.recvFailed ∈ (websocket_endpoint 0 [] [] true [] false).events :=
  ⟨(c10_empty_store_no_welcome 0 [] true false).1 0 Json.null,
   (c10_empty_store_no_welcome 0 [] true false).2.1,
   (c10_empty_store_no_welcome 0 [] true false).2.2⟩
